import Mathlib

/-!
Shallow embedding of the ragflow-plus glue layer:
  - `src/api/apps/rpc_app.py`  (Flask HTTP handlers)
  - `src/api/nacos_config.py`  (NacosConfigManager wrapper)

Python values appearing in JSON bodies are modelled by `JVal`;
Python truthiness and `len` are modelled explicitly.  External
collaborators (Flask's JSON parsing, the Nacos SDK client, the YAML
parser) are passed in as explicit outcome arguments so that the
handlers and manager methods remain pure functions of their inputs.
-/

/-- JSON-ish Python value as seen by the handlers. -/
inductive JVal where
  | null : JVal
  | bool (b : Bool) : JVal
  | num (n : Int) : JVal
  | str (s : String) : JVal
  | arr (xs : List JVal) : JVal
  | obj (fields : List (String × JVal)) : JVal

/-- Python truthiness (`if not data`) of a `JVal`. -/
def JVal.truthy : JVal → Bool
  | .null => false
  | .bool b => b
  | .num n => n != 0
  | .str s => !s.isEmpty
  | .arr xs => !xs.isEmpty
  | .obj fs => !fs.isEmpty

/-- Python type name of a `JVal`, used in exception messages. -/
def JVal.typeName : JVal → String
  | .null => "NoneType"
  | .bool _ => "bool"
  | .num _ => "int"
  | .str _ => "str"
  | .arr _ => "list"
  | .obj _ => "dict"

/-- Python `len(v)`: defined for sized values, `none` models a TypeError. -/
def pyLen : JVal → Option Nat
  | .str s => some s.length
  | .arr xs => some xs.length
  | .obj fs => some fs.length
  | _ => none

/-- Python `str(v)` as used inside f-strings (only the cases the handlers
reach; containers are rendered by their type name, which no claim relies on). -/
def pyStr : JVal → String
  | .null => "None"
  | .bool b => if b then "True" else "False"
  | .num n => toString n
  | .str s => s
  | .arr _ => "list"
  | .obj _ => "dict"

/-- Python `dict.get(key, default)` on an association list. -/
def dictGet (fields : List (String × JVal)) (key : String) (default : JVal) : JVal :=
  match fields.lookup key with
  | some v => v
  | none => default

/-- Outcome of Flask `request.get_json()` inside a handler:
either it raised (malformed JSON body / unsupported media type),
returned a falsy/absent value (no body, JSON null), or returned data. -/
inductive GetJsonResult where
  | raised (msg : String) : GetJsonResult
  | data (d : JVal) : GetJsonResult

/-- An HTTP response produced by a handler: status code and JSON body,
the body as the association list handed to `jsonify`. -/
structure HttpResponse where
  status : Nat
  body : List (String × JVal)

/-- The response has an `error` field in its JSON body. -/
def HttpResponse.hasErrorField (r : HttpResponse) : Bool :=
  (r.body.lookup "error").isSome

/-- The status code is a client error (4xx). -/
def isClientError (s : Nat) : Bool := 400 ≤ s && s < 500

/-- GET /rpc/health (`health_check` in rpc_app.py): fixed payload, 200. -/
def health_check : HttpResponse :=
  { status := 200
    body := [("status", .str "healthy"),
             ("service", .str "ragflow-plus"),
             ("message", .str "RAGFlow service is running")] }

/-- The 500 response built by every handler's `except Exception` branch. -/
def exceptionResponse (msg : String) : HttpResponse :=
  { status := 500, body := [("error", .str msg), ("status", .str "error")] }

/-- POST /rpc/process_document (`process_document` in rpc_app.py).
`req` is the outcome of `request.get_json()`.  A raise from `get_json`,
from `.get` on a non-dict, or from `len` on an unsized value is caught
by the surrounding `except Exception` and converted to a 500 response. -/
def process_document (req : GetJsonResult) : HttpResponse :=
  match req with
  | .raised msg => exceptionResponse msg
  | .data d =>
    if !d.truthy then
      { status := 400, body := [("error", .str "No data provided"), ("status", .str "error")] }
    else
      match d with
      | .obj fields =>
        let document_content := dictGet fields "document_content" (.str "")
        let document_name := dictGet fields "document_name" (.str "unnamed")
        let content_length : Option Nat :=
          if document_content.truthy then pyLen document_content else some 0
        match content_length with
        | none =>
          exceptionResponse ("object of type " ++ document_content.typeName ++ " has no len()")
        | some n =>
          { status := 200
            body := [("status", .str "success"),
                     ("document_name", document_name),
                     ("content_length", .num n),
                     ("message", .str ("Document " ++ pyStr document_name ++ " processed successfully"))] }
      | other =>
        exceptionResponse (other.typeName ++ " object has no attribute get")

/-- POST /rpc/query_knowledge (`query_knowledge` in rpc_app.py). -/
def query_knowledge (req : GetJsonResult) : HttpResponse :=
  match req with
  | .raised msg => exceptionResponse msg
  | .data d =>
    if !d.truthy then
      { status := 400, body := [("error", .str "No query data provided"), ("status", .str "error")] }
    else
      match d with
      | .obj fields =>
        let query_text := dictGet fields "query" (.str "")
        let kb_id := dictGet fields "kb_id" (.str "")
        { status := 200
          body := [("status", .str "success"),
                   ("query", query_text),
                   ("kb_id", kb_id),
                   ("results", .arr []),
                   ("message", .str "Query processed successfully")] }
      | other =>
        exceptionResponse (other.typeName ++ " object has no attribute get")

/-- POST /rpc/create_knowledge_base (`create_knowledge_base` in rpc_app.py). -/
def create_knowledge_base (req : GetJsonResult) : HttpResponse :=
  match req with
  | .raised msg => exceptionResponse msg
  | .data d =>
    if !d.truthy then
      { status := 400, body := [("error", .str "No data provided"), ("status", .str "error")] }
    else
      match d with
      | .obj fields =>
        let kb_name := dictGet fields "name" (.str "")
        let tenant_id := dictGet fields "tenant_id" (.str "")
        { status := 200
          body := [("status", .str "success"),
                   ("kb_name", kb_name),
                   ("tenant_id", tenant_id),
                   ("kb_id", .str "generated_kb_id"),
                   ("message", .str ("Knowledge base " ++ pyStr kb_name ++ " created successfully"))] }
      | other =>
        exceptionResponse (other.typeName ++ " object has no attribute get")

/-!
Embedding of `src/api/nacos_config.py`.  The Nacos SDK client and the
YAML parser are external collaborators; each call site takes the call's
outcome as an explicit argument (an exception raised by the client is
`.raised msg` / `.error msg`).  A method returns its Python return value,
the manager state after the call, and the list of messages it logged.
-/

/-- Process environment: `os.getenv` as a partial map. -/
structure Env where
  get : String → Option String

/-- Python `os.getenv(key, default)`. -/
def Env.getD (env : Env) (key default : String) : String :=
  (env.get key).getD default

/-- Python `x or y` for strings: `y` when `x` is falsy (None or empty). -/
def pyOrStr (x : Option String) (y : String) : String :=
  match x with
  | none => y
  | some s => if s.isEmpty then y else s

/-- Python `x or y` for ints: `y` when `x` is falsy (None or 0). -/
def pyOrInt (x : Option Int) (y : Int) : Int :=
  match x with
  | none => y
  | some n => if n = 0 then y else n

/-- Base-10 digits to a natural number; `none` when empty or non-digit. -/
def digitsToNat : List Char → Option Nat
  | [] => none
  | cs =>
    if cs.all Char.isDigit then
      some (cs.foldl (fun acc c => acc * 10 + (c.toNat - 48)) 0)
    else none

/-- Python `int(s)` for the strings `__init__` parses (an optional sign
followed by base-10 digits): `none` models the ValueError raised on a
non-numeric string. -/
def pyInt (s : String) : Option Int :=
  match s.data with
  | '-' :: cs => (digitsToNat cs).map fun n => -(n : Int)
  | cs => (digitsToNat cs).map fun n => (n : Int)

/-- Mutable state of a `NacosConfigManager` instance (nacos_config.py,
`__init__`).  `client` is external; the fields recorded here are the ones
the wrapped methods read and write. -/
structure ManagerState where
  server_addresses : String
  nacos_namespace : String
  username : Option String
  password : Option String
  config_cache : String → Option String
  service_name : String
  group : String
  service_port : Int
  service_host : String

namespace NacosConfigManager

/-- `NacosConfigManager.__init__`: resolves every field from the
constructor arguments and the environment.  `none` models the ValueError
`int(os.getenv("HOST_PORT", "9380"))` raises on a non-numeric value. -/
def init (env : Env) (server_addresses : Option String := none)
    (namespace_arg : Option String := none) : Option ManagerState :=
  match pyInt (env.getD "HOST_PORT" "9380") with
  | none => none
  | some port =>
    some { server_addresses := pyOrStr server_addresses (env.getD "NACOS_SERVER_ADDRESSES" "127.0.0.1:8848")
           nacos_namespace := pyOrStr namespace_arg (env.getD "NACOS_NAMESPACE" "")
           username := env.get "NACOS_USERNAME"
           password := env.get "NACOS_PASSWORD"
           config_cache := fun _ => none
           service_name := env.getD "SERVICE_NAME" "ragflow-plus"
           group := env.getD "NACOS_GROUP" "DEFAULT_GROUP"
           service_port := port
           service_host := env.getD "HOST_IP" "127.0.0.1" }

/-- Outcome of `self.client.get_config(...)`: the call raised, or returned
None, or returned a string. -/
inductive FetchResult where
  | raised (msg : String) : FetchResult
  | value (v : Option String) : FetchResult

/-- Store `v` under `k` in the config cache (Python dict assignment). -/
def updCache (cache : String → Option String) (k v : String)
    : String → Option String :=
  fun k2 => if k2 = k then some v else cache k2

/-- `NacosConfigManager.get_config`: returns the fetched string (or None
on failure), caching truthy results under the key `group:data_id`.
`fetch` (the client call's outcome) comes before the Python parameters so
that the Python default arguments stay usable as Lean defaults. -/
def get_config (st : ManagerState) (fetch : FetchResult) (data_id : String)
    (group : String := "DEFAULT_GROUP") (timeout_ms : Int := 3000)
    : Option String × ManagerState × List String :=
  match fetch with
  | .raised e => (none, st, ["Failed to get config from Nacos: " ++ e])
  | .value config =>
    match config with
    | none => (none, st, [])
    | some s =>
      if s.isEmpty then (some s, st, [])
      else (some s, { st with config_cache := updCache st.config_cache (group ++ ":" ++ data_id) s }, [])

/-- Outcome of `yaml.safe_load(config_str)`: a `yaml.YAMLError`, or the
parsed value (a YAML scalar, sequence or mapping; YAML `null` is `.null`). -/
inductive YamlResult where
  | raised (msg : String) : YamlResult
  | value (v : JVal) : YamlResult

/-- `NacosConfigManager.get_yaml_config`: fetches via `get_config`, then
parses truthy content with `yaml.safe_load`; `parse` is the parser's
behaviour on the fetched string. -/
def get_yaml_config (st : ManagerState) (fetch : FetchResult)
    (parse : String → YamlResult) (data_id : String)
    (group : String := "DEFAULT_GROUP") : JVal × ManagerState × List String :=
  let r := get_config st fetch data_id group
  match r.1 with
  | some s =>
    if s.isEmpty then (.obj [], r.2.1, r.2.2)
    else
      match parse s with
      | .value v => (v, r.2.1, r.2.2)
      | .raised e => (.obj [], r.2.1, r.2.2 ++ ["Failed to parse YAML config: " ++ e])
  | none => (.obj [], r.2.1, r.2.2)

/-- The instance record passed to `client.add_naming_instance`, fields in
the order of the keyword arguments at the call site. -/
structure NamingInstance where
  service_name : String
  ip : String
  port : Int
  weight : Rat
  group_name : String
  cluster_name : String
  enable : Bool
  healthy : Bool

/-- `NacosConfigManager.register_service`: falsy-or-omitted arguments fall
back to the process-wide fields; the constructed instance is handed to the
client, whose outcome `call` decides which message is logged.  Exceptions
from the client are caught, never re-raised. -/
def register_service (st : ManagerState) (call : Except String Unit)
    (service_name : Option String := none) (group : Option String := none)
    (port : Option Int := none) (host : Option String := none)
    (weight : Rat := 1) : NamingInstance × List String :=
  let service_name := pyOrStr service_name st.service_name
  let group := pyOrStr group st.group
  let port := pyOrInt port st.service_port
  let host := pyOrStr host st.service_host
  let inst : NamingInstance :=
    { service_name := service_name, ip := host, port := port, weight := weight
      group_name := group, cluster_name := "DEFAULT", enable := true, healthy := true }
  match call with
  | .ok _ =>
    (inst, ["Service " ++ service_name ++ " registered successfully at " ++ host ++ ":" ++ toString port])
  | .error e => (inst, ["Failed to register service: " ++ e])

/-- The instance key passed to `client.remove_naming_instance`. -/
structure RemovalKey where
  service_name : String
  ip : String
  port : Int
  group_name : String
  cluster_name : String

/-- `NacosConfigManager.deregister_service`: same falsy-or-default
resolution as registration; client exceptions are caught and logged. -/
def deregister_service (st : ManagerState) (call : Except String Unit)
    (service_name : Option String := none) (group : Option String := none)
    (port : Option Int := none) (host : Option String := none)
    : RemovalKey × List String :=
  let service_name := pyOrStr service_name st.service_name
  let group := pyOrStr group st.group
  let port := pyOrInt port st.service_port
  let host := pyOrStr host st.service_host
  let key : RemovalKey :=
    { service_name := service_name, ip := host, port := port
      group_name := group, cluster_name := "DEFAULT" }
  match call with
  | .ok _ => (key, ["Service " ++ service_name ++ " deregistered successfully"])
  | .error e => (key, ["Failed to deregister service: " ++ e])

/-- `NacosConfigManager.get_service_instances`: returns whatever the
client returned, or an empty list when the client raised. -/
def get_service_instances {α : Type} (st : ManagerState)
    (call : Except String (List α)) (service_name : String)
    (group : String := "DEFAULT_GROUP") : List α × List String :=
  match call with
  | .ok v => (v, [])
  | .error e => ([], ["Failed to get service instances: " ++ e])

end NacosConfigManager

/-- `get_nacos_config_manager`: module-level lazy singleton.  `g` is the
global `nacos_config_manager` before the call; the result pairs the
returned manager with the global afterwards, and is `none` when the
first-call construction raised (in which case the global stays None). -/
def get_nacos_config_manager (env : Env) (g : Option ManagerState)
    : Option (ManagerState × Option ManagerState) :=
  match g with
  | some m => some (m, some m)
  | none =>
    match NacosConfigManager.init env with
    | some m => some (m, some m)
    | none => none

/-!
Helper definitions and lemmas shared by the verification theorems.
-/

/-- The value is a Python mapping (dict). -/
def JVal.isMapping : JVal → Bool
  | .obj _ => true
  | _ => false

/-- A fixture manager state carrying the default construction values
(the ones `__init__` resolves from an empty environment). -/
def stDefault : ManagerState :=
  { server_addresses := "127.0.0.1:8848"
    nacos_namespace := ""
    username := none
    password := none
    config_cache := fun _ => none
    service_name := "ragflow-plus"
    group := "DEFAULT_GROUP"
    service_port := 9380
    service_host := "127.0.0.1" }

/-- An environment that sets only `HOST_PORT=0`. -/
def envPortZero : Env :=
  ⟨fun k => if k = "HOST_PORT" then some "0" else none⟩

theorem pyOrInt_ne_zero (x : Option Int) (y : Int) (hy : y ≠ 0) :
    pyOrInt x y ≠ 0 := by
  cases x with
  | none => exact hy
  | some n =>
    by_cases hn : n = 0
    · simpa [pyOrInt, hn] using hy
    · simp [pyOrInt, hn]

theorem pyOrStr_ne_empty (x : Option String) (y : String) (hy : y ≠ "") :
    pyOrStr x y ≠ "" := by
  cases x with
  | none => exact hy
  | some s =>
    by_cases hs : s.isEmpty
    · simpa [pyOrStr, hs] using hy
    · intro h
      rw [pyOrStr] at h
      rw [if_neg (by simp [hs])] at h
      exact hs.elim (by simp [h, String.isEmpty_iff])

theorem isEmpty_false_of_ne (s : String) (h : s ≠ "") : s.isEmpty = false := by
  rcases Bool.eq_false_or_eq_true s.isEmpty with hb | hb
  · exact absurd ((String.isEmpty_iff s).mp hb) h
  · exact hb

/-- C5: `GET /rpc/health` takes no input, never fails, and always returns
the fixed liveness payload: HTTP 200 with status "healthy", service
"ragflow-plus" and a message, independent of any registry state (the
handler reads no state at all). -/
theorem C5_health_check_fixed_payload :
    health_check.status = 200 ∧
    health_check.body.lookup "status" = some (.str "healthy") ∧
    health_check.body.lookup "service" = some (.str "ragflow-plus") ∧
    health_check.body.lookup "message" = some (.str "RAGFlow service is running") :=
  ⟨rfl, rfl, rfl, rfl⟩

/-- C4: POST /rpc/process_document on the documented example body returns
HTTP 200 with exactly the documented JSON body, and in general the
`content_length` field equals the length of the provided
`document_content` string. -/
theorem C4_process_document_content_length :
    (process_document (.data (.obj [("document_content", .str "hello"),
        ("document_name", .str "a.txt")])) =
      { status := 200
        body := [("status", .str "success"),
                 ("document_name", .str "a.txt"),
                 ("content_length", .num 5),
                 ("message", .str "Document a.txt processed successfully")] }) ∧
    ∀ (s name : String),
      process_document (.data (.obj [("document_content", .str s),
          ("document_name", .str name)])) =
        { status := 200
          body := [("status", .str "success"),
                   ("document_name", .str name),
                   ("content_length", .num s.length),
                   ("message", .str ("Document " ++ name ++ " processed successfully"))] } := by
  refine ⟨rfl, ?_⟩
  intro s name
  by_cases hs : s = ""
  · subst hs; rfl
  · simp [process_document, dictGet, JVal.truthy, pyLen, pyStr,
      isEmpty_false_of_ne s hs, List.lookup]

/-- C3: whenever the underlying client's `get_config` raises,
`NacosConfigManager.get_config` returns None instead of propagating the
exception, leaves the state unchanged, and logs the failure. -/
theorem C3_get_config_absorbs_client_failure :
    ∀ (st : ManagerState) (e data_id group : String) (timeout_ms : Int),
      NacosConfigManager.get_config st (.raised e) data_id group timeout_ms =
        (none, st, ["Failed to get config from Nacos: " ++ e]) := by
  intro st e data_id group timeout_ms
  rfl

/-- C6: whenever the underlying client's instance listing raises,
`get_service_instances` returns an empty list (never None), plus a log
message, so callers can always iterate over the result. -/
theorem C6_list_instances_empty_on_failure :
    ∀ (α : Type) (st : ManagerState) (e service_name group : String),
      NacosConfigManager.get_service_instances st
          (Except.error e : Except String (List α)) service_name group =
        ([], ["Failed to get service instances: " ++ e]) := by
  intro α st e service_name group
  rfl

/-- C1 counterexample: a malformed JSON body makes `request.get_json()`
raise inside the handler's `try`; the broad `except Exception` converts
it to HTTP 500 — a server error, not the client-error (4xx) status the
claim requires. -/
theorem C1_counterexample_malformed_json_is_500 :
    (process_document (.raised "Failed to decode JSON object")).status = 500 ∧
    isClientError (process_document (.raised "Failed to decode JSON object")).status = false ∧
    (query_knowledge (.raised "Failed to decode JSON object")).status = 500 ∧
    (create_knowledge_base (.raised "Failed to decode JSON object")).status = 500 :=
  ⟨rfl, rfl, rfl, rfl⟩

/-- C1 amended: on all three POST handlers, a missing/empty body (one on
which `request.get_json()` yields a falsy value) produces HTTP 400 with
an `error` field, while a malformed JSON body (on which `get_json`
raises) produces HTTP 500 — still with an `error` field — because the
broad `except Exception` converts the parse exception into the
server-error response. -/
theorem C1_amended_post_body_error_responses :
    ∀ (m : String) (d : JVal), d.truthy = false →
      ((process_document (.data d)).status = 400 ∧
        (process_document (.data d)).hasErrorField = true) ∧
      ((query_knowledge (.data d)).status = 400 ∧
        (query_knowledge (.data d)).hasErrorField = true) ∧
      ((create_knowledge_base (.data d)).status = 400 ∧
        (create_knowledge_base (.data d)).hasErrorField = true) ∧
      ((process_document (.raised m)).status = 500 ∧
        (process_document (.raised m)).hasErrorField = true) ∧
      ((query_knowledge (.raised m)).status = 500 ∧
        (query_knowledge (.raised m)).hasErrorField = true) ∧
      ((create_knowledge_base (.raised m)).status = 500 ∧
        (create_knowledge_base (.raised m)).hasErrorField = true) := by
  intro m d hd
  refine ⟨?_, ?_, ?_, ⟨rfl, rfl⟩, ⟨rfl, rfl⟩, ⟨rfl, rfl⟩⟩ <;>
    simp [process_document, query_knowledge, create_knowledge_base, hd,
      HttpResponse.hasErrorField, List.lookup]

/-- C1 amended witness: the amended statement instantiated at a JSON
null body (falsy) and a concrete parse-failure message. -/
theorem C1_amended_witness :
    JVal.null.truthy = false ∧
    (process_document (.data .null)).status = 400 ∧
    (process_document (.raised "Failed to decode JSON object")).status = 500 :=
  ⟨rfl, (C1_amended_post_body_error_responses "Failed to decode JSON object" .null rfl).1.1,
    (C1_amended_post_body_error_responses "Failed to decode JSON object" .null rfl).2.2.2.1.1⟩

/-- C2 counterexample: content "5" is valid YAML that parses to the
integer 5 (`yaml.safe_load` behaviour); `get_yaml_config` returns that
integer unchanged, so it does not always return a mapping. -/
theorem C2_counterexample_scalar_yaml :
    (NacosConfigManager.get_yaml_config stDefault (.value (some "5"))
        (fun _ => .value (.num 5)) "app-config" "DEFAULT_GROUP").1 = .num 5 ∧
    (NacosConfigManager.get_yaml_config stDefault (.value (some "5"))
        (fun _ => .value (.num 5)) "app-config" "DEFAULT_GROUP").1.isMapping = false :=
  ⟨rfl, rfl⟩

/-- C2 amended: `get_yaml_config` never propagates a fetch failure or a
YAML parse error: when the fetch raises, returns None, or returns an
empty (falsy) string it returns an empty mapping; when parsing raises a
YAML error it returns an empty mapping and logs the parse failure; when
parsing succeeds it returns the parsed value as-is, which is a mapping
whenever the content is a YAML mapping but may be any YAML value. -/
theorem C2_amended_get_yaml_config :
    ∀ (st : ManagerState) (d g e m s : String) (p : String → NacosConfigManager.YamlResult)
      (v : JVal),
      (NacosConfigManager.get_yaml_config st (.raised e) p d g).1 = .obj [] ∧
      (NacosConfigManager.get_yaml_config st (.value none) p d g).1 = .obj [] ∧
      (NacosConfigManager.get_yaml_config st (.value (some "")) p d g).1 = .obj [] ∧
      (NacosConfigManager.get_yaml_config st (.value (some s))
          (fun _ => .raised m) d g).1 = .obj [] ∧
      (NacosConfigManager.get_yaml_config st (.value (some s))
          (fun _ => .raised m) d g).2.2 =
        (if s.isEmpty then [] else ["Failed to parse YAML config: " ++ m]) ∧
      (NacosConfigManager.get_yaml_config st (.value (some s))
          (fun _ => .value v) d g).1 = (if s.isEmpty then .obj [] else v) := by
  intro st d g e m s p v
  refine ⟨rfl, rfl, rfl, ?_, ?_, ?_⟩ <;>
    by_cases hs : s.isEmpty <;>
      simp [NacosConfigManager.get_yaml_config, NacosConfigManager.get_config, hs]

/-- C7: `register_service` always constructs the instance as healthy and
enabled in cluster "DEFAULT"; with every Python argument omitted the
instance carries weight 1.0 and the process-wide service name, host,
port and group held by the manager; a failing client registration call
is logged (not raised) and the method still returns; and the
process-wide defaults are exactly the values `__init__` resolves from
the environment. -/
theorem C7_register_service_defaults_and_degrades :
    ∀ (st : ManagerState) (sn g h : Option String) (p : Option Int) (w : Rat)
      (c : Except String Unit) (e : String) (env : Env),
      ((NacosConfigManager.register_service st c sn g p h w).1.healthy = true ∧
        (NacosConfigManager.register_service st c sn g p h w).1.enable = true ∧
        (NacosConfigManager.register_service st c sn g p h w).1.cluster_name = "DEFAULT") ∧
      (NacosConfigManager.register_service st c).1 =
        { service_name := st.service_name, ip := st.service_host,
          port := st.service_port, weight := 1, group_name := st.group,
          cluster_name := "DEFAULT", enable := true, healthy := true } ∧
      (NacosConfigManager.register_service st (.error e) sn g p h w).2 =
        ["Failed to register service: " ++ e] ∧
      ((NacosConfigManager.init env).map fun s =>
          (s.service_name, s.group, s.service_port, s.service_host)) =
        ((pyInt (env.getD "HOST_PORT" "9380")).map fun port =>
          (env.getD "SERVICE_NAME" "ragflow-plus", env.getD "NACOS_GROUP" "DEFAULT_GROUP",
           port, env.getD "HOST_IP" "127.0.0.1")) := by
  intro st sn g h p w c e env
  refine ⟨?_, ?_, rfl, ?_⟩
  · cases c <;> exact ⟨rfl, rfl, rfl⟩
  · cases c <;> rfl
  · cases hp : pyInt (env.getD "HOST_PORT" "9380") <;>
      simp [NacosConfigManager.init, hp]

/-- C8: `get_nacos_config_manager` is a single-assignment lazy
singleton: whenever the global already holds a manager it is returned
unchanged (for any environment — the constructor is not re-run), and on
the first call the manager produced by `NacosConfigManager.__init__` is
both returned and stored, so every call returns the same instance. -/
theorem C8_manager_singleton :
    ∀ (env env2 : Env) (m : ManagerState),
      get_nacos_config_manager env2 (some m) = some (m, some m) ∧
      get_nacos_config_manager env none =
        ((NacosConfigManager.init env).map fun m0 => (m0, some m0)) := by
  intro env env2 m
  constructor
  · rfl
  · cases h : NacosConfigManager.init env <;> simp [get_nacos_config_manager, h]

/-- C9: `get_config` writes the config cache only when the client fetch
succeeds with a truthy (non-empty) string, storing it under the key
`group:data_id`; when the fetch raises or yields a falsy value the whole
manager state — the cache included — is returned unchanged, and in the
truthy case every field other than the cache is unchanged. -/
theorem C9_get_config_cache_frame :
    ∀ (st : ManagerState) (d g e s : String) (t : Int),
      (NacosConfigManager.get_config st (.raised e) d g t).2.1 = st ∧
      (NacosConfigManager.get_config st (.value none) d g t).2.1 = st ∧
      (NacosConfigManager.get_config st (.value (some s)) d g t).2.1 =
        (if s.isEmpty then st
         else { st with config_cache :=
                  NacosConfigManager.updCache st.config_cache (g ++ ":" ++ d) s }) := by
  intro st d g e s t
  refine ⟨rfl, rfl, ?_⟩
  by_cases hs : s.isEmpty <;> simp [NacosConfigManager.get_config, hs]

/-- C10 counterexample: with `HOST_PORT=0` in the environment the
process-wide default port is 0, so `register_service` invoked with the
explicit falsy argument port=0 substitutes that default and hands the
client an instance whose port IS 0 — registering a port-0 instance is
not impossible. -/
theorem C10_counterexample_port_zero_registered :
    ((NacosConfigManager.init envPortZero).map fun st =>
        (NacosConfigManager.register_service st (.ok ()) none none (some 0) none).1.port) =
      some 0 := by
  rfl

/-- C10 amended: falsy explicit arguments (empty name/group/host, port
0) are treated exactly like omitted arguments — the process-wide default
is substituted — in both `register_service` and `deregister_service`;
consequently an instance with port 0, empty host or empty name can be
produced only when the corresponding process-wide default is itself
falsy (e.g. the environment sets HOST_PORT=0): whenever the manager's
defaults are non-falsy, no call registers or deregisters port 0, an
empty host or an empty name. -/
theorem C10_amended_falsy_args_use_defaults :
    ∀ (st : ManagerState) (c : Except String Unit) (sn g h : Option String)
      (p : Option Int) (w : Rat),
      NacosConfigManager.register_service st c (some "") (some "") (some 0) (some "") w =
        NacosConfigManager.register_service st c none none none none w ∧
      NacosConfigManager.deregister_service st c (some "") (some "") (some 0) (some "") =
        NacosConfigManager.deregister_service st c ∧
      (st.service_port ≠ 0 →
        (NacosConfigManager.register_service st c sn g p h w).1.port ≠ 0 ∧
        (NacosConfigManager.deregister_service st c sn g p h).1.port ≠ 0) ∧
      (st.service_host ≠ "" →
        (NacosConfigManager.register_service st c sn g p h w).1.ip ≠ "" ∧
        (NacosConfigManager.deregister_service st c sn g p h).1.ip ≠ "") ∧
      (st.service_name ≠ "" →
        (NacosConfigManager.register_service st c sn g p h w).1.service_name ≠ "" ∧
        (NacosConfigManager.deregister_service st c sn g p h).1.service_name ≠ "") := by
  intro st c sn g h p w
  cases c <;>
    exact ⟨rfl, rfl,
      fun h0 => ⟨pyOrInt_ne_zero p st.service_port h0, pyOrInt_ne_zero p st.service_port h0⟩,
      fun h0 => ⟨pyOrStr_ne_empty h st.service_host h0, pyOrStr_ne_empty h st.service_host h0⟩,
      fun h0 => ⟨pyOrStr_ne_empty sn st.service_name h0, pyOrStr_ne_empty sn st.service_name h0⟩⟩

/-- C10 amended witness: on the default-valued manager state (port 9380,
host 127.0.0.1, name ragflow-plus) the hypotheses hold and a call with
the explicit falsy port argument 0 still never yields port 0. -/
theorem C10_amended_witness :
    stDefault.service_port ≠ 0 ∧ stDefault.service_host ≠ "" ∧
    stDefault.service_name ≠ "" ∧
    (NacosConfigManager.register_service stDefault (.ok ()) none none (some 0) none 1).1.port ≠ 0 ∧
    (NacosConfigManager.register_service stDefault (.ok ()) none none (some 0) none 1).1.ip ≠ "" ∧
    (NacosConfigManager.register_service stDefault (.ok ()) none none (some 0) none 1).1.service_name ≠ "" :=
  ⟨by decide, by decide, by decide,
    ((C10_amended_falsy_args_use_defaults stDefault (.ok ()) none none none (some 0) 1).2.2.1
      (by decide)).1,
    ((C10_amended_falsy_args_use_defaults stDefault (.ok ()) none none none (some 0) 1).2.2.2.1
      (by decide)).1,
    ((C10_amended_falsy_args_use_defaults stDefault (.ok ()) none none none (some 0) 1).2.2.2.2
      (by decide)).1⟩
